import Mathlib

/-!
Shallow embedding of `src/setrow-rn-push/index.js` (the `SetrowRNPush`
class and the `backgroundMessaging` entry point).

Modelling conventions:
* JavaScript values appearing in config fields are modelled by `JSVal`
  (string / number / boolean / function / undefined), enough to express
  the dynamic `typeof` checks of the source.
* `AsyncStorage` holds exactly the three keys the source uses
  (`config`, `fcmToken`, `isSubscribed`); a missing key (`getItem`
  returning `null`) is `none`.  Storage operations are modelled as
  always succeeding.
* Each asynchronous operation is a pure function from the mutable state
  (`Mem`: storage plus the in-memory private `#config` object) to an
  outcome (`POutcome`: resolved / rejected / never settles), the new
  state, and the ordered list of observable effects (`Effect`) it
  performed: storage reads and writes, HTTP requests, console logs,
  invocations of the user tap callback, calls into the wrapped firebase
  library, and listener attachment.
* External nondeterminism (platform string, the token the firebase
  library returns, success of channel creation / token deletion /
  notification display, the cold-start initial notification, device
  metadata, the wall clock) is an `Env` record.
* JavaScript promise semantics: code keeps executing after `reject(..)`
  is called; only the first settlement of a promise counts.  For
  `checkParams`, where the source calls `reject` without returning,
  the model (`checkParamsRun`) records the full ordered list of
  settlement attempts and `firstSettle` picks the one that wins.
-/

set_option autoImplicit false

namespace SetrowRNPush

/-- Dynamic JavaScript values as far as the config checks observe them. -/
inductive JSVal where
  | vstr (s : String)
  | vnum (n : Int)
  | vbool (b : Bool)
  | vfun
  | vundef
  deriving DecidableEq, Repr

/-- Mirrors the JavaScript test `typeof v === "string"`. -/
def JSVal.isString : JSVal → Bool
  | .vstr _ => true
  | _ => false

/-- Mirrors the JavaScript test `typeof v === "function"`. -/
def JSVal.isFunction : JSVal → Bool
  | .vfun => true
  | _ => false

/-- The private `#config` object of the `SetrowRNPush` class. -/
structure Config where
  apiKey : JSVal
  userEmail : JSVal
  bundleId : JSVal
  callbackAfterTap : JSVal
  deriving DecidableEq, Repr

/-- The initial value of `#config` (source lines 11-16). -/
def defaultConfig : Config :=
  { apiKey := .vstr "", userEmail := .vstr "", bundleId := .vstr "",
    callbackAfterTap := .vfun }

/-- The caller-supplied `config` argument: any subset of the fields. -/
structure PartialConfig where
  apiKey : Option JSVal := none
  userEmail : Option JSVal := none
  bundleId : Option JSVal := none
  callbackAfterTap : Option JSVal := none
  deriving DecidableEq, Repr

/-- Spread merge `\x7b ...base, ...c \x7d` of the supplied fields over the
current config (source line 84). -/
def mergeConfig (base : Config) (c : PartialConfig) : Config :=
  { apiKey := c.apiKey.getD base.apiKey,
    userEmail := c.userEmail.getD base.userEmail,
    bundleId := c.bundleId.getD base.bundleId,
    callbackAfterTap := c.callbackAfterTap.getD base.callbackAfterTap }

/-- One config field as `JSON.stringify` serializes it: function and
undefined values are dropped, everything else is kept under its key. -/
def serializeField (name : String) (v : JSVal) : List (String × JSVal) :=
  match v with
  | .vfun => []
  | .vundef => []
  | _ => [(name, v)]

/-- The persisted form of the config
(`JSON.stringify(this.#config)`, source line 89): the
`callbackAfterTap` function is discarded automatically. -/
def serializeConfig (c : Config) : List (String × JSVal) :=
  serializeField "apiKey" c.apiKey ++ serializeField "userEmail" c.userEmail ++
    serializeField "bundleId" c.bundleId ++
    serializeField "callbackAfterTap" c.callbackAfterTap

/-! ## Email validation

The source (lines 77-80) lowercases the input and tests it against the
regular expression

  (dot-separated atoms | quoted string) at
  (bracketed IPv4 literal | labels ending in an alphabetic TLD)

anchored at both ends.  The matcher below follows the anatomy of that
regular expression literally.  Since neither domain alternative can
contain an at sign, the separating at sign is necessarily the last one
in the string. -/

/-- Character class `\s` of the source regex (ASCII part). -/
def isJsSpace (c : Char) : Bool :=
  c = ' ' || c = '\t' || c = '\n' || c = '\r' || c = '\x0b' || c = '\x0c'

/-- Characters allowed in an unquoted local-part atom:
the negated class excluding angle brackets, parentheses, square
brackets, backslash, dot, comma, semicolon, colon, whitespace, at sign
and double quote. -/
def atomChar (c : Char) : Bool :=
  !(c = '<' || c = '>' || c = '(' || c = ')' || c = '[' || c = ']' ||
    c = '\\' || c = '.' || c = ',' || c = ';' || c = ':' || c = '@' ||
    c = '"' || isJsSpace c)

/-- Local part, first alternative: one or more atoms separated by single
dots; each atom is a nonempty run of `atomChar`s. -/
def dotAtomLocal (l : List Char) : Bool :=
  (l.splitOn '.').all fun p => !p.isEmpty && p.all atomChar

/-- Local part, second alternative: a double-quoted nonempty string;
the regex dot does not match line terminators. -/
def quotedLocal (l : List Char) : Bool :=
  decide (3 ≤ l.length) && (l.head? == some '"') && (l.getLast? == some '"') &&
    ((l.drop 1).dropLast.all fun c => !(c = '\n' || c = '\r'))

/-- Decimal digit. -/
def digitChar (c : Char) : Bool := '0' ≤ c && c ≤ '9'

/-- ASCII letter. -/
def alphaChar (c : Char) : Bool :=
  ('a' ≤ c && c ≤ 'z') || ('A' ≤ c && c ≤ 'Z')

/-- Character class `[a-zA-Z\-0-9]` for a domain label. -/
def labelChar (c : Char) : Bool := alphaChar c || digitChar c || c = '-'

/-- Domain, first alternative: a bracketed dotted quad, each component
one to three digits. -/
def ipDomain (d : List Char) : Bool :=
  match d with
  | '[' :: rest =>
    match rest.getLast? with
    | some ']' =>
      let parts := rest.dropLast.splitOn '.'
      parts.length == 4 &&
        parts.all fun p => decide (1 ≤ p.length) && decide (p.length ≤ 3) &&
          p.all digitChar
    | _ => false
  | _ => false

/-- Domain, second alternative: one or more labels each followed by a
dot, then a final run of at least two letters. -/
def nameDomain (d : List Char) : Bool :=
  let parts := d.splitOn '.'
  match parts.getLast? with
  | none => false
  | some fin =>
    decide (2 ≤ parts.length) && decide (2 ≤ fin.length) && fin.all alphaChar &&
      parts.dropLast.all fun p => !p.isEmpty && p.all labelChar

/-- Whole-string match of the source regex: split at the last at sign,
the prefix must match a local-part alternative and the suffix a domain
alternative. -/
def validateEmailChars (cs : List Char) : Bool :=
  let rev := cs.reverse
  match rev.findIdx? (· = '@') with
  | none => false
  | some i =>
    let domainPart := (rev.take i).reverse
    let localPart := (rev.drop (i + 1)).reverse
    (dotAtomLocal localPart || quotedLocal localPart) &&
      (ipDomain domainPart || nameDomain domainPart)

/-- Model of `validateEmail` (source lines 77-80): lowercase, then test against
the regex. -/
def validateEmail (email : String) : Bool :=
  validateEmailChars (email.toList.map Char.toLower)

/-! ## State, environment and effects -/

/-- The three `AsyncStorage` keys the source uses.  `none` models a key
that is absent (`getItem` returns `null`). -/
structure Storage where
  config : Option (List (String × JSVal)) := none
  fcmToken : Option String := none
  isSubscribed : Option String := none
  deriving DecidableEq, Repr

/-- Mutable state: persistent storage plus the in-memory `#config`. -/
structure Mem where
  storage : Storage
  configMem : Config
  deriving DecidableEq, Repr

/-- JavaScript truthiness of a string-or-null storage value:
`null` and the empty string are falsy. -/
def jsTruthyStr : Option String → Bool
  | none => false
  | some s => s != ""

/-- The device-info object built by `getDeviceInfo`
(source lines 323-341). -/
structure DeviceInfoObject where
  deviceOs : String
  deviceUniqueId : String
  deviceBrand : String
  deviceModel : String
  deviceId : String
  deviceOsVersion : String
  deriving DecidableEq, Repr

/-- The `data` mapping of a notification or message, with the fields
this code reads.  `none` models an absent (`undefined`) field. -/
structure NotifData where
  title : Option String := none
  body : Option String := none
  sound : Option String := none
  image : Option String := none
  tag : Option String := none
  sendId : Option String := none
  deriving DecidableEq, Repr

/-- A notification object as this code reads it. -/
structure Notification where
  _notificationId : Option String := none
  _messageId : Option String := none
  title : Option String := none
  body : Option String := none
  _data : NotifData := {}
  deriving DecidableEq, Repr

/-- The `data` getter of the notification class of the wrapped library
returns the `_data` payload. -/
def Notification.data (n : Notification) : NotifData := n._data

/-- An incoming `RemoteMessage` for the background entry point: it has
`data` but no `_data` until the handler copies it over. -/
structure RemoteMessage where
  _messageId : Option String := none
  data : NotifData := {}
  deriving DecidableEq, Repr

/-- The local notification built by `displayLocalNotification`
(source lines 430-444), with the field values the builder chain sets. -/
structure LocalNotification where
  showInForeground : Bool := true
  notificationId : Option String
  title : Option String
  body : Option String
  data : NotifData
  sound : Option String
  bigPicture : Option String
  channelId : String := "push"
  smallIcon : String := "ic_notification"
  color : String := "#00FF00"
  vibrate : Nat := 1000
  deriving DecidableEq, Repr

/-- Bodies of the HTTP requests this code issues. -/
inductive ReqBody where
  | register (apiKey userEmail : JSVal) (fcmToken : String) (dev : DeviceInfoObject)
  | update (apiKey : JSVal) (oldFcmToken : Option String) (newFcmToken : String)
      (dev : DeviceInfoObject)
  | del (apiKey : JSVal) (fcmToken : String)
  | log (apiKey : Option JSVal) (fcmToken : Option String) (event : String)
      (sendId : JSVal) (tag : String) (isInitial : Bool)
      (displayedAt tappedAt : Option Nat)
  deriving DecidableEq, Repr

def registerUrl : String := "https://push.setrowid.com/mobile/v1/register.php"

def updateUrl : String := "https://push.setrowid.com/mobile/v1/update.php"

def deleteUrl : String := "https://push.setrowid.com/mobile/v1/delete.php"

def logUrl : String := "https://push.setrowid.com/mobile/v1/log.php"

/-- Observable effects, in program order: storage traffic, calls into
the wrapped firebase library, HTTP requests, console output, user
callback invocations, and listener attachment. -/
inductive Effect where
  | storageSetConfig (c : List (String × JSVal))
  | storageGetConfig (r : Option (List (String × JSVal)))
  | storageSetToken (t : String)
  | storageGetToken (r : Option String)
  | storageRemoveToken
  | storageSetSubscribed (v : String)
  | storageGetSubscribed (r : Option String)
  | firebaseGetToken (r : Option String)
  | firebaseDeleteToken
  | getInitialNotification
  | removeDelivered (id : Option String)
  | createChannelGroup
  | createChannel
  | http (url method : String) (body : ReqBody)
  | consoleLog (msg : String)
  | tapCallback (d : NotifData)
  | displayCall (dataOnly : Bool)
  | displayNotification (ln : LocalNotification)
  | attachListener (name : String)
  deriving DecidableEq, Repr

/-- Outcome of a JavaScript promise: resolved with a value, rejected
with a reason, or never settled (no branch called resolve or reject). -/
inductive POutcome (α : Type) where
  | resolved (v : α)
  | rejected (e : JSVal)
  | never
  deriving DecidableEq, Repr

/-- One settlement attempt inside an executor that may call `resolve`
or `reject` several times. -/
inductive Settle where
  | resolveU (v : JSVal)
  | rejectS (e : JSVal)
  deriving DecidableEq, Repr

/-- Only the first settlement attempt of a promise counts. -/
def firstSettle : List Settle → POutcome JSVal
  | [] => .never
  | .resolveU v :: _ => .resolved v
  | .rejectS e :: _ => .rejected e

/-- External world: platform, responses of the wrapped library, device
metadata and the wall clock. -/
structure Env where
  platformOS : String
  firebaseToken : Option String := none
  channelGroupCreateOk : Bool := true
  channelCreateOk : Bool := true
  deleteTokenOk : Bool := true
  displayOk : Bool := true
  initialNotification : Option Notification := none
  now : Nat := 0
  deviceUniqueId : String := ""
  deviceBrand : String := ""
  deviceModel : String := ""
  deviceId : String := ""
  deviceOsVersion : String := ""
  deriving DecidableEq, Repr

/-- Sequencing of promise-returning steps (`then` chains): a rejection
or a never-settling step short-circuits the rest of the chain. -/
def pseq {α β : Type} (x : POutcome α × Mem × List Effect)
    (f : α → Mem → POutcome β × Mem × List Effect) :
    POutcome β × Mem × List Effect :=
  match x with
  | (.resolved v, m, es) =>
    match f v m with
    | (o, m2, es2) => (o, m2, es ++ es2)
  | (.rejected e, m, es) => (.rejected e, m, es)
  | (.never, m, es) => (.never, m, es)

/-! ## Operations -/

/-- Model of `getDeviceInfo` (source lines 323-341): builds the info object from
`Platform.OS` and the device-info library. -/
def getDeviceInfo (env : Env) : DeviceInfoObject :=
  { deviceOs := env.platformOS, deviceUniqueId := env.deviceUniqueId,
    deviceBrand := env.deviceBrand, deviceModel := env.deviceModel,
    deviceId := env.deviceId, deviceOsVersion := env.deviceOsVersion }

/-- The condition under which `checkParams` (line 86) and `setEmail`
(line 50) reject an email value: not a string, or nonempty and failing
`validateEmail`. -/
def emailParamInvalid (v : JSVal) : Bool :=
  match v with
  | .vstr s => decide (s.length > 0) && !validateEmail s
  | _ => true

/-- Executor body of `checkParams` (source lines 82-93).  The source
calls `reject` without returning, so execution continues through every
check and through the storage write; the model therefore returns the
full ordered list of settlement attempts.  The third check re-tests
`apiKey` (not `bundleId`) exactly as the source does. -/
def checkParamsRun (cfg : PartialConfig) (m : Mem) :
    List Settle × Mem × List Effect :=
  let mc := mergeConfig m.configMem cfg
  let a1 := if mc.apiKey.isString then [] else
    [Settle.rejectS (.vstr "Key must be string")]
  let a2 := if emailParamInvalid mc.userEmail then
    [Settle.rejectS (.vstr "Email must be valid")] else []
  let a3 := if mc.apiKey.isString then [] else
    [Settle.rejectS (.vstr "Bundle ID must be string")]
  let a4 := if mc.callbackAfterTap.isFunction then [] else
    [Settle.rejectS (.vstr "Callback must be function")]
  let stored := serializeConfig mc
  (a1 ++ a2 ++ a3 ++ a4 ++ [Settle.resolveU .vundef],
   { storage := { m.storage with config := some stored }, configMem := mc },
   [Effect.storageSetConfig stored])

/-- The promise returned by `checkParams`: the first settlement wins. -/
def checkParams (cfg : PartialConfig) (m : Mem) :
    POutcome JSVal × Mem × List Effect :=
  match checkParamsRun cfg m with
  | (atts, m2, es) => (firstSettle atts, m2, es)

/-- All four validation checks of `checkParams` pass. -/
def checkParamsOk (c : Config) : Bool :=
  c.apiKey.isString && !emailParamInvalid c.userEmail &&
    c.callbackAfterTap.isFunction

/-- Model of `createAndroidChannel` (source lines 95-119).  On android it creates
a channel group or a channel; on ios it resolves immediately; on any
other platform no branch runs and the promise never settles. -/
def createAndroidChannel (env : Env) (createGroup : Bool) :
    POutcome Unit × List Effect :=
  if env.platformOS == "android" then
    if createGroup then
      if env.channelGroupCreateOk then
        (.resolved (), [.createChannelGroup,
          .consoleLog "Android channel group created."])
      else (.rejected (.vstr "Error when creating channel"), [.createChannelGroup])
    else
      if env.channelCreateOk then
        (.resolved (), [.createChannel, .consoleLog "Android channel created."])
      else (.rejected (.vstr "Error when creating channel"), [.createChannel])
  else if env.platformOS == "ios" then (.resolved (), [])
  else (.never, [])

/-- Model of `getToken` (source lines 173-201): set the subscribed flag, then
read-through cache.  On a cache miss it asks the firebase library for a
token; a truthy new token is persisted and registered by an unawaited
POST to the registration endpoint; a falsy one rejects with `false`. -/
def getToken (env : Env) (m : Mem) : POutcome String × Mem × List Effect :=
  let m1 : Mem := { m with storage := { m.storage with isSubscribed := some "true" } }
  let cached := m1.storage.fcmToken
  let e1 : List Effect := [.storageSetSubscribed "true", .storageGetToken cached]
  if jsTruthyStr cached then
    (.resolved (cached.getD ""), m1,
      e1 ++ [.consoleLog "Token exists in local storage"])
  else
    let tok := env.firebaseToken
    let e2 := e1 ++ [Effect.firebaseGetToken tok]
    if jsTruthyStr tok then
      let t := tok.getD ""
      let m2 : Mem := { m1 with storage := { m1.storage with fcmToken := some t } }
      let body := ReqBody.register m.configMem.apiKey m.configMem.userEmail t
        (getDeviceInfo env)
      (.resolved t, m2,
        e2 ++ [.storageSetToken t, .http registerUrl "POST" body,
          .consoleLog "Getting new token..."])
    else
      (.rejected (.vbool false), m1, e2)

/-- Model of `checkIfSubscribed` (source lines 497-499). -/
def checkIfSubscribed (m : Mem) : Bool :=
  m.storage.isSubscribed == some "true"

/-- Model of `sendLog` (source lines 520-541): fire-and-forget POST to the log
endpoint, built from the notification, the persisted config and token,
and the optional custom `initial` flag.  When no config is persisted,
`JSON.parse(null)` yields `null` and reading `.apiKey` on it throws
before the request is built, so no request is sent. -/
def sendLog (env : Env) (eventType : String) (n : Notification)
    (isInitial : Bool) (m : Mem) : Mem × List Effect :=
  let sendId : JSVal := match n._data.sendId with
    | some v => .vstr v
    | none => .vnum 0
  let tag : String := (n.data.tag).getD ""
  let cfgRead := m.storage.config
  let tokRead := m.storage.fcmToken
  let e := [Effect.storageGetConfig cfgRead, Effect.storageGetToken tokRead]
  match cfgRead with
  | none => (m, e)
  | some kvs =>
    let apiKey := (kvs.find? fun kv => kv.1 == "apiKey").map fun kv => kv.2
    let displayedAt := if eventType == "display" then some env.now else none
    let tappedAt := if eventType == "tap" then some env.now else none
    (m, e ++ [Effect.consoleLog "Log body:",
      Effect.http logUrl "POST"
        (.log apiKey tokRead eventType sendId tag isInitial displayedAt tappedAt)])

/-- Model of `checkIfOpenedByNotification` (source lines 401-418): if the process
was launched by a notification tap, remove the delivered notification,
invoke the user tap callback with the payload data, and send a tap log
with the custom `initial` flag; always resolves. -/
def checkIfOpenedByNotification (env : Env) (m : Mem) :
    POutcome Unit × Mem × List Effect :=
  match env.initialNotification with
  | some n =>
    let e1 : List Effect := [.getInitialNotification,
      .consoleLog "App is opened because of notification interaction",
      .removeDelivered n._notificationId, .tapCallback n.data]
    match sendLog env "tap" n true m with
    | (m2, e2) => (.resolved (), m2, e1 ++ e2)
  | none =>
    (.resolved (), m,
      [.getInitialNotification, .consoleLog "Not opened by notification"])

/-- Model of `createListeners` (source lines 546-552): attaches the five
lifecycle listeners, in source order. -/
def createListeners : List Effect :=
  [.attachListener "onNotificationOpened",
   .attachListener "onNotificationDisplayed",
   .attachListener "onNotification",
   .attachListener "onMessage",
   .attachListener "onTokenRefresh"]

/-- Model of `init` (source lines 32-41): `checkParams`, then the cold-start
check, then channel creation (with a channel group), then listener
attachment; any rejection propagates to the returned promise. -/
def init (env : Env) (cfg : PartialConfig) (m : Mem) :
    POutcome Unit × Mem × List Effect :=
  pseq (checkParams cfg m) fun _ m1 =>
    pseq (checkIfOpenedByNotification env m1) fun _ m2 =>
      pseq (match createAndroidChannel env true with
            | (o, es) => (o, m2, es)) fun _ m3 =>
        (.resolved (), m3, createListeners)

/-- Body of the `onTokenRefresh` listener (source lines 379-399): only
when the subscribed flag is the string true, compare the cached token
with the fresh one; if different, persist the new token and PATCH the
update endpoint with old and new token plus device metadata. -/
def onTokenRefreshHandler (env : Env) (newFcmToken : String) (m : Mem) :
    Mem × List Effect :=
  let isSub := m.storage.isSubscribed
  let e0 : List Effect := [.storageGetSubscribed isSub]
  if isSub == some "true" then
    let old := m.storage.fcmToken
    let e1 := e0 ++ [Effect.storageGetToken old]
    if old == some newFcmToken then (m, e1)
    else
      let m2 : Mem := { m with storage := { m.storage with fcmToken := some newFcmToken } }
      let body := ReqBody.update m.configMem.apiKey old newFcmToken
        (getDeviceInfo env)
      (m2, e1 ++ [.storageSetToken newFcmToken, .http updateUrl "PATCH" body])
  else (m, e0)

/-- Model of `displayLocalNotification` (source lines 425-462): after channel
creation resolves, build the local notification, picking id, title and
body from the data payload when `dataOnly` is set, and ask the library
to display it; on android a successful display also sends a display
log.  A channel-creation rejection or stall silently drops the rest. -/
def displayLocalNotification (env : Env) (n : Notification) (dataOnly : Bool)
    (m : Mem) : Mem × List Effect :=
  let e0 : List Effect := [.displayCall dataOnly]
  match createAndroidChannel env false with
  | (.resolved _, ec) =>
    let notID := if dataOnly then n._messageId else n._notificationId
    let title := if dataOnly then n.data.title else n.title
    let body := if dataOnly then n.data.body else n.body
    let ln : LocalNotification :=
      { notificationId := notID, title := title, body := body,
        data := n._data, sound := n.data.sound, bigPicture := n.data.image }
    if env.displayOk then
      match (if env.platformOS == "android" then sendLog env "display" n false m
             else (m, [])) with
      | (m2, e2) =>
        (m2, e0 ++ ec ++ [Effect.displayNotification ln] ++ e2 ++
          [Effect.consoleLog "Local notification has been displayed"])
    else
      (m, e0 ++ ec ++ [Effect.displayNotification ln,
        Effect.consoleLog "display error"])
  | (.rejected _, ec) => (m, e0 ++ ec)
  | (.never, ec) => (m, e0 ++ ec)

/-- The exported `backgroundMessaging` task (source lines 563-569):
log the message, copy `data` into `_data`, and hand the message to
`displayLocalNotification` with the data-only branch selected. -/
def backgroundMessaging (env : Env) (message : RemoteMessage) (m : Mem) :
    POutcome Unit × Mem × List Effect :=
  let n : Notification := { _messageId := message._messageId, _data := message.data }
  match displayLocalNotification env n true m with
  | (m2, e1) => (.resolved (), m2, Effect.consoleLog "message" :: e1)

/-- Model of `unsubscribe` (source lines 468-491): read the cached token, delete
the library token, clear the cache, set the subscribed flag to the
string false; then, if a nonempty token string had been cached, DELETE
it from the backend, otherwise pass a message string on to the final
log; resolves unless the library deletion fails. -/
def unsubscribe (env : Env) (m : Mem) : POutcome Unit × Mem × List Effect :=
  let fcmTokenToDelete := m.storage.fcmToken
  let e0 : List Effect := [.storageGetToken fcmTokenToDelete, .firebaseDeleteToken]
  if env.deleteTokenOk then
    let m1 : Mem :=
      { m with storage :=
          { m.storage with fcmToken := none, isSubscribed := some "false" } }
    let e1 := e0 ++ [Effect.storageRemoveToken, Effect.storageSetSubscribed "false"]
    match fcmTokenToDelete with
    | some t =>
      if t.length > 0 then
        (.resolved (), m1,
          e1 ++ [.http deleteUrl "DELETE" (.del m.configMem.apiKey t),
            .consoleLog "response"])
      else
        (.resolved (), m1,
          e1 ++ [.consoleLog "fcmToken not found in local storage when unsubscribing"])
    | none =>
      (.resolved (), m1,
        e1 ++ [.consoleLog "fcmToken not found in local storage when unsubscribing"])
  else
    (.rejected (.vstr "deleteToken error"), m, e0)

/-! ## Effect classifiers used by the claims -/

/-- Is this effect a POST to the registration endpoint. -/
def isRegisterReq : Effect → Bool
  | .http url _ _ => url == registerUrl
  | _ => false

/-- Is this effect a PATCH to the update endpoint. -/
def isUpdateReq : Effect → Bool
  | .http url mth _ => url == updateUrl && mth == "PATCH"
  | _ => false

/-- Is this effect a request to the delete endpoint. -/
def isDeleteReq : Effect → Bool
  | .http url _ _ => url == deleteUrl
  | _ => false

/-- Is this effect an invocation of the user tap callback. -/
def isTapCallbackEff : Effect → Bool
  | .tapCallback _ => true
  | _ => false

/-- Is this effect a tap log carrying the custom `initial` flag. -/
def isInitialTapLog : Effect → Bool
  | .http url _ (.log _ _ ev _ _ ini _ _) => url == logUrl && ev == "tap" && ini
  | _ => false

/-- Is this effect the cold-start query to the library. -/
def isGetInitialNotif : Effect → Bool
  | .getInitialNotification => true
  | _ => false

/-- Is this effect the attachment of a lifecycle listener. -/
def isAttachListener : Effect → Bool
  | .attachListener _ => true
  | _ => false

/-- Number of effects in a list satisfying a classifier. -/
def countEff (p : Effect → Bool) (es : List Effect) : Nat :=
  (es.filter p).length

/-! ## Concrete inputs used by witnesses and counterexamples -/

/-- An ios environment whose push library returns the token `tok0`. -/
def env0 : Env := { platformOS := "ios", firebaseToken := some "tok0" }

/-- An ios environment whose push library returns no token. -/
def envNoTok : Env := { platformOS := "ios", firebaseToken := none }

/-- Fresh state: empty storage, default config. -/
def m0 : Mem := { storage := {}, configMem := defaultConfig }

/-- State with a cached token but no subscribed flag. -/
def mUnsub : Mem :=
  { storage := { fcmToken := some "a" }, configMem := defaultConfig }

/-- State with a cached token and the subscribed flag set. -/
def mSub : Mem :=
  { storage := { fcmToken := some "a", isSubscribed := some "true" },
    configMem := defaultConfig }

/-- A cold-start notification with a payload. -/
def n0 : Notification :=
  { _notificationId := some "nid",
    _data := { title := some "T", sendId := some "5" } }

/-- An ios environment where the process was launched by tapping `n0`. -/
def envCold : Env := { platformOS := "ios", initialNotification := some n0 }

/-- A well-formed config argument. -/
def cfg0 : PartialConfig := { apiKey := some (JSVal.vstr "k") }

/-- A config argument whose `apiKey` is a number. -/
def cfgBad : PartialConfig := { apiKey := some (JSVal.vnum 0) }

/-- An environment on a platform that is neither android nor ios. -/
def envWin : Env := { platformOS := "windows" }

/-- A background message carrying only a data payload. -/
def msg0 : RemoteMessage :=
  { _messageId := some "mid", data := { title := some "DT", body := some "DB" } }

/-! ## Helper lemmas -/

theorem getLast?_append_singleton {α : Type} (l : List α) (a : α) :
    (l ++ [a]).getLast? = some a := by
  rw [List.getLast?_append_cons]; rfl

/-- When every validation check passes, `checkParams` resolves with the
merged config both in memory and, serialized, in storage. -/
theorem checkParams_eq_of_ok (cfg : PartialConfig) (m : Mem)
    (h : checkParamsOk (mergeConfig m.configMem cfg) = true) :
    checkParams cfg m =
      (POutcome.resolved JSVal.vundef,
       { storage := { m.storage with
           config := some (serializeConfig (mergeConfig m.configMem cfg)) },
         configMem := mergeConfig m.configMem cfg },
       [Effect.storageSetConfig (serializeConfig (mergeConfig m.configMem cfg))]) := by
  simp only [checkParamsOk, Bool.and_eq_true, Bool.not_eq_true'] at h
  obtain ⟨⟨hA, hB⟩, hC⟩ := h
  simp [checkParams, checkParamsRun, hA, hB, hC, firstSettle]

/-- When some validation check fails, the promise returned by
`checkParams` settles as a rejection with a string reason. -/
theorem checkParams_of_bad (cfg : PartialConfig) (m : Mem)
    (h : checkParamsOk (mergeConfig m.configMem cfg) = false) :
    ∃ s, (checkParams cfg m).1 = POutcome.rejected (JSVal.vstr s) := by
  cases hA : (mergeConfig m.configMem cfg).apiKey.isString with
  | false =>
    exact ⟨"Key must be string",
      by simp [checkParams, checkParamsRun, hA, firstSettle]⟩
  | true =>
    cases hB : emailParamInvalid (mergeConfig m.configMem cfg).userEmail with
    | true =>
      exact ⟨"Email must be valid",
        by simp [checkParams, checkParamsRun, hA, hB, firstSettle]⟩
    | false =>
      cases hC : (mergeConfig m.configMem cfg).callbackAfterTap.isFunction with
      | false =>
        exact ⟨"Callback must be function",
          by simp [checkParams, checkParamsRun, hA, hB, hC, firstSettle]⟩
      | true => rw [checkParamsOk, hA, hB, hC] at h; simp at h

/-- A rejection of `checkParams` propagates to the promise returned by
`init`. -/
theorem init_fst_of_params_rejected (env : Env) (cfg : PartialConfig) (m : Mem)
    (e : JSVal) (h : (checkParams cfg m).1 = POutcome.rejected e) :
    (init env cfg m).1 = POutcome.rejected e := by
  unfold init
  rcases hcp : checkParams cfg m with ⟨o, m1, es⟩
  rw [hcp] at h
  simp only at h
  subst h
  simp [pseq]

/-- After a successful `checkParams`, none of the later `init` steps
touches the state, so `init` ends in the state `checkParams` left. -/
theorem init_mem_of_ok (env : Env) (cfg : PartialConfig) (m : Mem)
    (h : checkParamsOk (mergeConfig m.configMem cfg) = true) :
    (init env cfg m).2.1 = (checkParams cfg m).2.1 := by
  rw [init, checkParams_eq_of_ok cfg m h]
  by_cases hA : env.platformOS = "android"
  · cases hg : env.channelGroupCreateOk <;>
      rcases hn : env.initialNotification with _ | n <;>
      simp [pseq, checkIfOpenedByNotification, sendLog, createAndroidChannel,
        createListeners, hA, hg, hn, checkParams_eq_of_ok cfg m h]
  · by_cases hI : env.platformOS = "ios" <;>
      rcases hn : env.initialNotification with _ | n <;>
      simp [pseq, checkIfOpenedByNotification, sendLog, createAndroidChannel,
        createListeners, hA, hI, hn, checkParams_eq_of_ok cfg m h]

/-! ## Claim theorems -/

/-- C7: the email validation function accepts `a@b.com` and rejects
`a@@b` and `a b@c.com`. -/
theorem validateEmail_spec_examples :
    validateEmail "a@b.com" = true ∧ validateEmail "a@@b" = false ∧
      validateEmail "a b@c.com" = false := by
  decide

/-- C9: every `getToken` call sets the persisted subscribed flag to the
string true as its very first effect, before any token lookup, so after
any `getToken` call, including one that rejects because the push
library returned no token, `checkIfSubscribed` reports true. -/
theorem getToken_sets_subscribed_first (env : Env) (m : Mem) :
    (getToken env m).2.2.head? = some (Effect.storageSetSubscribed "true") ∧
    (getToken env m).2.1.storage.isSubscribed = some "true" ∧
    checkIfSubscribed (getToken env m).2.1 = true := by
  cases h1 : jsTruthyStr m.storage.fcmToken <;>
    cases h2 : jsTruthyStr env.firebaseToken <;>
    simp [getToken, checkIfSubscribed, h1, h2]

/-- C1: when a first `getToken` call leaves a token in the local cache,
a second call returns exactly that cached token and issues no
registration request: the register branch runs only on an empty cache. -/
theorem getToken_second_call_cached (env : Env) (m : Mem)
    (h : jsTruthyStr (getToken env m).2.1.storage.fcmToken = true) :
    ∃ t, (getToken env m).2.1.storage.fcmToken = some t ∧
      (getToken env ((getToken env m).2.1)).1 = POutcome.resolved t ∧
      countEff isRegisterReq (getToken env ((getToken env m).2.1)).2.2 = 0 := by
  set m1 : Mem := (getToken env m).2.1 with hm1
  cases hm : m1.storage.fcmToken with
  | none => rw [hm] at h; simp [jsTruthyStr] at h
  | some t =>
    rw [hm] at h
    simp only [jsTruthyStr] at h
    refine ⟨t, rfl, ?_, ?_⟩ <;>
      simp [getToken, hm, h, countEff, isRegisterReq, jsTruthyStr]

/-- Witness for C1 on a fresh state: the first call caches `tok0`. -/
theorem getToken_second_call_cached_witness :
    ∃ t, (getToken env0 m0).2.1.storage.fcmToken = some t ∧
      (getToken env0 ((getToken env0 m0).2.1)).1 = POutcome.resolved t ∧
      countEff isRegisterReq (getToken env0 ((getToken env0 m0).2.1)).2.2 = 0 :=
  getToken_second_call_cached env0 m0 (by decide)

/-- C2 counterexample: a refresh event delivered while the subscribed
flag is unset.  The fresh token `b` differs from the cached token `a`,
yet the handler issues zero update calls and leaves the cache at `a`,
refuting the unconditional claim. -/
theorem onTokenRefresh_unsubscribed_counterexample :
    mUnsub.storage.fcmToken ≠ some "b" ∧
    countEff isUpdateReq (onTokenRefreshHandler env0 "b" mUnsub).2 = 0 ∧
    (onTokenRefreshHandler env0 "b" mUnsub).1.storage.fcmToken = some "a" := by
  decide

/-- C2 (amended): for every refresh event delivered while the persisted
subscribed flag is the string true, a differing fresh token is
persisted and triggers exactly one PATCH to the update endpoint, while
an identical fresh token triggers no update call and leaves the state
unchanged. -/
theorem onTokenRefresh_update_calls (env : Env) (newTok : String) (m : Mem)
    (hsub : m.storage.isSubscribed = some "true") :
    (m.storage.fcmToken ≠ some newTok →
      (onTokenRefreshHandler env newTok m).1.storage.fcmToken = some newTok ∧
      countEff isUpdateReq (onTokenRefreshHandler env newTok m).2 = 1) ∧
    (m.storage.fcmToken = some newTok →
      countEff isUpdateReq (onTokenRefreshHandler env newTok m).2 = 0 ∧
      (onTokenRefreshHandler env newTok m).1 = m) := by
  constructor
  · intro hne
    simp [onTokenRefreshHandler, hsub, hne, countEff, isUpdateReq]
  · intro heq
    simp [onTokenRefreshHandler, hsub, heq, countEff, isUpdateReq]

/-- Witness for the amended C2: cached token `a`, fresh token `b`,
subscribed flag set. -/
theorem onTokenRefresh_update_calls_witness :
    (onTokenRefreshHandler env0 "b" mSub).1.storage.fcmToken = some "b" ∧
    countEff isUpdateReq (onTokenRefreshHandler env0 "b" mSub).2 = 1 :=
  (onTokenRefresh_update_calls env0 "b" mSub rfl).1 (by decide)

/-- C4: on any config that fails a validation check, the executor of
`checkParams` first attempts a rejection, yet execution continues: the
merged config is still written to storage, and a resolve attempt still
fires later on the same promise. -/
theorem checkParams_continues_past_reject (cfg : PartialConfig) (m : Mem)
    (hbad : checkParamsOk (mergeConfig m.configMem cfg) = false) :
    (∃ e, firstSettle (checkParamsRun cfg m).1 = POutcome.rejected e) ∧
    (checkParamsRun cfg m).1.getLast? = some (Settle.resolveU JSVal.vundef) ∧
    (checkParamsRun cfg m).2.1.storage.config =
      some (serializeConfig (mergeConfig m.configMem cfg)) := by
  refine ⟨?_, ?_, rfl⟩
  · obtain ⟨s, hs⟩ := checkParams_of_bad cfg m hbad
    exact ⟨.vstr s, hs⟩
  · simp only [checkParamsRun]
    exact getLast?_append_singleton _ _

/-- C5: `init` merges the supplied config over the defaults; it rejects
with a plain string reason when `apiKey` is not a string, when
`userEmail` is a nonempty string failing the regex check, or when
`callbackAfterTap` is not a function; when every check passes it
persists the serialized merged config, from which the callback is
dropped, to storage. -/
theorem init_validation (env : Env) (cfg : PartialConfig) (st : Storage) :
    ((mergeConfig defaultConfig cfg).apiKey.isString = false →
      ∃ s, (init env cfg ⟨st, defaultConfig⟩).1 = POutcome.rejected (JSVal.vstr s)) ∧
    ((∃ e, (mergeConfig defaultConfig cfg).userEmail = JSVal.vstr e ∧
        0 < e.length ∧ validateEmail e = false) →
      ∃ s, (init env cfg ⟨st, defaultConfig⟩).1 = POutcome.rejected (JSVal.vstr s)) ∧
    ((mergeConfig defaultConfig cfg).callbackAfterTap.isFunction = false →
      ∃ s, (init env cfg ⟨st, defaultConfig⟩).1 = POutcome.rejected (JSVal.vstr s)) ∧
    (checkParamsOk (mergeConfig defaultConfig cfg) = true →
      (init env cfg ⟨st, defaultConfig⟩).2.1.storage.config =
        some (serializeConfig (mergeConfig defaultConfig cfg))) := by
  have reject : checkParamsOk (mergeConfig defaultConfig cfg) = false →
      ∃ s, (init env cfg ⟨st, defaultConfig⟩).1 =
        POutcome.rejected (JSVal.vstr s) := by
    intro hbad
    obtain ⟨s, hs⟩ := checkParams_of_bad cfg ⟨st, defaultConfig⟩ hbad
    exact ⟨s, init_fst_of_params_rejected env cfg _ _ hs⟩
  refine ⟨fun hA => reject ?_, fun hB => reject ?_, fun hC => reject ?_,
    fun hok => ?_⟩
  · simp [checkParamsOk, hA]
  · obtain ⟨e, he, hlen, hval⟩ := hB
    have hinv : emailParamInvalid (mergeConfig defaultConfig cfg).userEmail = true := by
      rw [he]; simp [emailParamInvalid, hlen, hval]
    simp [checkParamsOk, hinv]
  · simp [checkParamsOk, hC]
  · rw [init_mem_of_ok env cfg ⟨st, defaultConfig⟩ hok,
      checkParams_eq_of_ok cfg _ hok]

/-- Witness for C5: a numeric `apiKey` makes `init` reject with a
string reason. -/
theorem init_validation_witness :
    ∃ s, (init env0 cfgBad ⟨m0.storage, defaultConfig⟩).1 =
      POutcome.rejected (JSVal.vstr s) :=
  (init_validation env0 cfgBad m0.storage).1 (by decide)

/-- Witness for C4: a numeric `apiKey` on a fresh state. -/
theorem checkParams_continues_past_reject_witness :
    (∃ e, firstSettle (checkParamsRun cfgBad m0).1 = POutcome.rejected e) ∧
    (checkParamsRun cfgBad m0).1.getLast? = some (Settle.resolveU JSVal.vundef) ∧
    (checkParamsRun cfgBad m0).2.1.storage.config =
      some (serializeConfig (mergeConfig m0.configMem cfgBad)) :=
  checkParams_continues_past_reject cfgBad m0 (by decide)

/-- C3: when the process was launched by a notification tap and the
config passes validation, `init` runs the cold-start check exactly
once: one query for the initial notification, one invocation of the
configured tap callback (with the notification payload), and one tap
log carrying the custom `initial` flag. -/
theorem init_coldStart_once (env : Env) (cfg : PartialConfig) (st : Storage)
    (n : Notification) (hn : env.initialNotification = some n)
    (hok : checkParamsOk (mergeConfig defaultConfig cfg) = true) :
    countEff isGetInitialNotif (init env cfg ⟨st, defaultConfig⟩).2.2 = 1 ∧
    countEff isTapCallbackEff (init env cfg ⟨st, defaultConfig⟩).2.2 = 1 ∧
    Effect.tapCallback n.data ∈ (init env cfg ⟨st, defaultConfig⟩).2.2 ∧
    countEff isInitialTapLog (init env cfg ⟨st, defaultConfig⟩).2.2 = 1 := by
  rw [init, checkParams_eq_of_ok cfg _ hok]
  by_cases hA : env.platformOS = "android"
  · cases hg : env.channelGroupCreateOk <;>
      simp [pseq, checkIfOpenedByNotification, sendLog, createAndroidChannel,
        createListeners, hA, hg, hn, countEff, isGetInitialNotif,
        isTapCallbackEff, isInitialTapLog]
  · by_cases hI : env.platformOS = "ios" <;>
      simp [pseq, checkIfOpenedByNotification, sendLog, createAndroidChannel,
        createListeners, hA, hI, hn, countEff, isGetInitialNotif,
        isTapCallbackEff, isInitialTapLog]

/-- Witness for C3: a cold start by tapping `n0` on ios with a valid
config. -/
theorem init_coldStart_once_witness :
    countEff isGetInitialNotif (init envCold cfg0 ⟨m0.storage, defaultConfig⟩).2.2 = 1 ∧
    countEff isTapCallbackEff (init envCold cfg0 ⟨m0.storage, defaultConfig⟩).2.2 = 1 ∧
    Effect.tapCallback n0.data ∈ (init envCold cfg0 ⟨m0.storage, defaultConfig⟩).2.2 ∧
    countEff isInitialTapLog (init envCold cfg0 ⟨m0.storage, defaultConfig⟩).2.2 = 1 :=
  init_coldStart_once envCold cfg0 m0.storage n0 rfl (by decide)

/-- C6: `unsubscribe` with no cached token (and a successful library
token deletion) resolves, issues no request to the delete endpoint,
logs the not-found message instead, and still sets the subscribed flag
to the string false. -/
theorem unsubscribe_no_token (env : Env) (m : Mem)
    (hd : env.deleteTokenOk = true) (ht : m.storage.fcmToken = none) :
    (unsubscribe env m).1 = POutcome.resolved () ∧
    countEff isDeleteReq (unsubscribe env m).2.2 = 0 ∧
    Effect.consoleLog "fcmToken not found in local storage when unsubscribing" ∈
      (unsubscribe env m).2.2 ∧
    (unsubscribe env m).2.1.storage.isSubscribed = some "false" := by
  simp [unsubscribe, hd, ht, countEff, isDeleteReq]

/-- Witness for C6: fresh state, successful library deletion. -/
theorem unsubscribe_no_token_witness :
    (unsubscribe env0 m0).1 = POutcome.resolved () ∧
    countEff isDeleteReq (unsubscribe env0 m0).2.2 = 0 ∧
    Effect.consoleLog "fcmToken not found in local storage when unsubscribing" ∈
      (unsubscribe env0 m0).2.2 ∧
    (unsubscribe env0 m0).2.1.storage.isSubscribed = some "false" :=
  unsubscribe_no_token env0 m0 rfl rfl

/-- C8: the background entry point hands every message to the local
rendering routine with the data-only branch selected, and (whenever
channel creation settles positively) the built local notification takes
its title and body from the message data fields. -/
theorem backgroundMessaging_data_only (env : Env) (msg : RemoteMessage) (m : Mem)
    (hplat : env.platformOS = "ios" ∨
      (env.platformOS = "android" ∧ env.channelCreateOk = true)) :
    Effect.displayCall true ∈ (backgroundMessaging env msg m).2.2 ∧
    ∃ ln : LocalNotification,
      Effect.displayNotification ln ∈ (backgroundMessaging env msg m).2.2 ∧
      ln.title = msg.data.title ∧ ln.body = msg.data.body := by
  constructor
  · rcases hplat with hI | ⟨hA, hc⟩
    · cases hd : env.displayOk <;> rcases hcfg : m.storage.config with _ | kvs <;>
        simp [backgroundMessaging, displayLocalNotification, createAndroidChannel,
          sendLog, hI, hd, hcfg]
    · cases hd : env.displayOk <;> rcases hcfg : m.storage.config with _ | kvs <;>
        simp [backgroundMessaging, displayLocalNotification, createAndroidChannel,
          sendLog, hA, hc, hd, hcfg]
  · refine
      ⟨{ notificationId := msg._messageId, title := msg.data.title,
         body := msg.data.body, data := msg.data, sound := msg.data.sound,
         bigPicture := msg.data.image }, ?_, rfl, rfl⟩
    rcases hplat with hI | ⟨hA, hc⟩
    · cases hd : env.displayOk <;> rcases hcfg : m.storage.config with _ | kvs <;>
        simp [backgroundMessaging, displayLocalNotification, createAndroidChannel,
          sendLog, hI, hd, hcfg, Notification.data]
    · cases hd : env.displayOk <;> rcases hcfg : m.storage.config with _ | kvs <;>
        simp [backgroundMessaging, displayLocalNotification, createAndroidChannel,
          sendLog, hA, hc, hd, hcfg, Notification.data]

/-- Witness for C8: a data-only message on ios. -/
theorem backgroundMessaging_data_only_witness :
    Effect.displayCall true ∈ (backgroundMessaging env0 msg0 m0).2.2 ∧
    ∃ ln : LocalNotification,
      Effect.displayNotification ln ∈ (backgroundMessaging env0 msg0 m0).2.2 ∧
      ln.title = msg0.data.title ∧ ln.body = msg0.data.body :=
  backgroundMessaging_data_only env0 msg0 m0 (Or.inl rfl)

/-- C10 counterexample: on a platform that is neither android nor ios,
an `init` call can still settle: with a numeric `apiKey` the returned
promise rejects, refuting the unconditional never-completes claim. -/
theorem init_other_platform_counterexample :
    envWin.platformOS ≠ "android" ∧ envWin.platformOS ≠ "ios" ∧
    (init envWin cfgBad m0).1 =
      POutcome.rejected (JSVal.vstr "Key must be string") := by
  decide

/-- C10 (amended): on a platform that is neither android nor ios, the
promise returned by `createAndroidChannel` never settles, so an `init`
call whose config passes validation never settles its returned promise
and never attaches the lifecycle listeners. -/
theorem createAndroidChannel_never_settles (env : Env) (cfg : PartialConfig)
    (st : Storage) (b : Bool)
    (h1 : env.platformOS ≠ "android") (h2 : env.platformOS ≠ "ios")
    (hok : checkParamsOk (mergeConfig defaultConfig cfg) = true) :
    (createAndroidChannel env b).1 = POutcome.never ∧
    (init env cfg ⟨st, defaultConfig⟩).1 = POutcome.never ∧
    countEff isAttachListener (init env cfg ⟨st, defaultConfig⟩).2.2 = 0 := by
  have hchan : ∀ bb : Bool, createAndroidChannel env bb = (POutcome.never, []) := by
    intro bb; simp [createAndroidChannel, h1, h2]
  refine ⟨by rw [hchan], ?_, ?_⟩ <;>
  · rw [init, checkParams_eq_of_ok cfg _ hok]
    rcases hn : env.initialNotification with _ | n <;>
      simp [pseq, checkIfOpenedByNotification, sendLog, hn, hchan, countEff,
        isAttachListener]

/-- Witness for the amended C10: a windows platform with a valid
config. -/
theorem createAndroidChannel_never_settles_witness :
    (createAndroidChannel envWin true).1 = POutcome.never ∧
    (init envWin cfg0 ⟨m0.storage, defaultConfig⟩).1 = POutcome.never ∧
    countEff isAttachListener (init envWin cfg0 ⟨m0.storage, defaultConfig⟩).2.2 = 0 :=
  createAndroidChannel_never_settles envWin cfg0 m0.storage true (by decide)
    (by decide) (by decide)

end SetrowRNPush
